import Mathlib

/-!
Verification of the lotus-lms-backend request handlers.

This file is a shallow embedding of the three HTTP handlers of the repository
that the specified core consists of:

* src/lambda/lambda_function.py   - ledger writer, conditional-create-then-update
* src/lambda/update_transaction.py - ledger writer, unconditional-put variant
* src/lambda/handler.py            - tenant-scoped course catalog reader

DynamoDB is modelled as an association list from a key to an item (a flat map
from field name to typed scalar), with an atomic conditional put, a plain put
and a point read.  The JSON parser of the Python standard library is external
code; a request body that arrives as a string carries the outcome of parsing it
(a flat map, or a failure for malformed JSON).  Timestamps are opaque strings
supplied to each handler invocation (the code reads the wall clock once per
write, twice on the duplicate-update path).  Store faults other than the
conditional-check failure are injected through explicit fault parameters,
carrying the diagnostic string of the raised exception.
-/

namespace LMS

/-- A typed scalar stored in an item field: a string, or an exact decimal
number (Python Decimal, modelled by the rational it denotes). -/
inductive Scalar
  | s (v : String)
  | d (v : ℚ)
deriving DecidableEq, Repr

/-- A DynamoDB item: a flat map from field name to scalar, in insertion
order, as a Python dict presents it. -/
abbrev Item := List (String × Scalar)

/-- Association-list lookup with decidable key equality: the model of both
Python dict lookup and DynamoDB key lookup. -/
def pyAssoc {κ α : Type} [DecidableEq κ] : List (κ × α) → κ → Option α
  | [], _ => none
  | (a, v) :: rest, k => if a = k then some v else pyAssoc rest k

/-- Insert-or-replace at a key.  A Python dict assignment keeps the position
of an existing key and appends a new one; a DynamoDB put replaces the whole
item at the key or inserts it.  Both are this operation. -/
def pyUpsert {κ α : Type} [DecidableEq κ] (m : List (κ × α)) (k : κ) (v : α) :
    List (κ × α) :=
  if (pyAssoc m k).isSome then m.map (fun p => if p.1 = k then (k, v) else p)
  else m ++ [(k, v)]

/-- A JSON value inside a parsed request body: a string, an exact decimal
number (the value denoted by the numeric literal), or null. -/
inductive BVal
  | s (v : String)
  | num (v : ℚ)
  | null
deriving DecidableEq, Repr

/-- A parsed JSON object body: flat field map. -/
abbrev BodyMap := List (String × BVal)

/-- Python truthiness of an optional body value: absent, null, the empty
string and zero are falsy. -/
def truthy : Option BVal → Bool
  | none => false
  | some .null => false
  | some (.s v) => v != ""
  | some (.num q) => q != 0

/-- Keep a body value only when it is truthy (the guard pattern
"if not body.get(field)" of the handlers). -/
def truthyVal (o : Option BVal) : Option BVal := if truthy o then o else none

/-- Python truthiness of an optional header string: absent and empty are
falsy. -/
def truthyOpt : Option String → Option String
  | none => none
  | some v => if v = "" then none else some v

/-- The "a or b" idiom over two optional header strings, followed by a
truthiness check of the result: first truthy value, if any. -/
def firstTruthy (a b : Option String) : Option String :=
  match truthyOpt a with
  | some v => some v
  | none => truthyOpt b

/-- Converting a truthy body value to a stored scalar (the value is placed
into the DynamoDB item unchanged; numbers arrive as exact decimals).  The
null case is unreachable behind the truthiness guards. -/
def scalarOf : BVal → Scalar
  | .s v => .s v
  | .num q => .d q
  | .null => .s ""

/-- Decimal digit value of a character. -/
def digitVal (c : Char) : Option ℕ :=
  if c.isDigit then some (c.toNat - 48) else none

/-- Value of a digit run; fails on a non-digit.  The empty run yields 0 and
is guarded by the callers. -/
def digitsVal (cs : List Char) : Option ℕ :=
  cs.foldl (fun acc c =>
    match acc, digitVal c with
    | some n, some d => some (10 * n + d)
    | _, _ => none) (some 0)

/-- Core of parsing an unsigned decimal literal: digits with an optional
single point, at least one side nonempty. -/
def parseDecCore (cs : List Char) : Option ℚ :=
  let ip := cs.takeWhile (fun c => c != '.')
  let rest := cs.dropWhile (fun c => c != '.')
  match rest with
  | [] => if ip = [] then none else (digitsVal ip).map (fun n => (n : ℚ))
  | _ :: fp =>
    if fp.any (fun c => c == '.') then none
    else if ip = [] ∧ fp = [] then none
    else
      match digitsVal ip, digitsVal fp with
      | some n, some f => some ((n : ℚ) + (f : ℚ) / (10 : ℚ) ^ fp.length)
      | _, _ => none

/-- Parsing a decimal literal string, the core of Decimal(str(value)):
optional sign, digits, optional fractional part.  Fails (the constructor
raises) on anything else. -/
def parseDec (s : String) : Option ℚ :=
  match s.toList with
  | '-' :: rest => (parseDecCore rest).map (fun q => -q)
  | '+' :: rest => parseDecCore rest
  | cs => parseDecCore cs

/-- Decimal(str(value)) applied to a body value: a number is recovered
exactly, a string is parsed as a decimal literal, anything else fails. -/
def decimalOfBVal : BVal → Option ℚ
  | .num q => some q
  | .s v => parseDec v
  | .null => none

/-- Hexadecimal digit value of a character, both cases. -/
def hexVal (c : Char) : Option ℕ :=
  if '0' ≤ c ∧ c ≤ '9' then some (c.toNat - 48)
  else if 'a' ≤ c ∧ c ≤ 'f' then some (c.toNat - 87)
  else if 'A' ≤ c ∧ c ≤ 'F' then some (c.toNat - 55)
  else none

/-- Percent-decoding over a character list: a percent sign followed by two
hex digits becomes the escaped character; a stray percent sign is kept
as-is.  This is urllib.parse.unquote restricted to single-byte escapes,
which is exact for ASCII identifiers. -/
def unquoteChars : List Char → List Char
  | [] => []
  | '%' :: a :: b :: rest =>
    match hexVal a, hexVal b with
    | some ha, some hb => Char.ofNat (16 * ha + hb) :: unquoteChars rest
    | _, _ => '%' :: unquoteChars (a :: b :: rest)
  | c :: rest => c :: unquoteChars rest

/-- Percent-decoding of a string (urllib.parse.unquote on ASCII input). -/
def unquote (s : String) : String := String.mk (unquoteChars s.toList)

/-- A JSON number as emitted by the response serializer: a Python int
(printed without a decimal point) or a Python float (printed with one;
abstracted here by the exact value handed to the float constructor). -/
inductive PyNum
  | intVal (n : ℤ)
  | floatVal (q : ℚ)
deriving DecidableEq, Repr

/-- default_serializer of handler.py (and, identically, DecimalEncoder.default
of lambda_function.py and default_serializer of update_transaction.py):
a Decimal with no fractional part becomes an int, any other a float. -/
def default_serializer (q : ℚ) : PyNum :=
  if q.den = 1 then .intVal q.num else .floatVal q

/-- Rendering a scalar into the string view of a response body. -/
def Scalar.render : Scalar → String
  | .s v => v
  | .d q => toString q

/-- The body channel of an inbound event.  The handlers read
event.get("body", a default of an empty JSON object text) and, when the body
is a string, hand it to the external JSON parser; a string body therefore
carries the outcome of that parse (none for malformed JSON).  A body that is
already an object is used directly. -/
inductive BodyInput
  | omitted
  | strBody (parsed : Option BodyMap)
  | dictBody (m : BodyMap)
deriving DecidableEq, Repr

/-- The parsed body as each ledger handler sees it after its parse step:
an omitted body defaults to the empty-object text, which parses to the empty
map; a string body parses or fails; a dict body is used as-is. -/
def parseBody : BodyInput → Option BodyMap
  | .omitted => some []
  | .strBody p => p
  | .dictBody m => some m

/-- Inbound event as read by the two ledger handlers: the top-level
httpMethod field, the method nested under requestContext.http (the fallback
update_transaction.py also reads), the header map and the body channel. -/
structure TxEvent where
  httpMethod : Option String
  rcMethod : Option String
  headers : List (String × String)
  body : BodyInput
deriving DecidableEq, Repr

/-- lambda_function.py method extraction: event.get("httpMethod", "") -/
def lfMethod (ev : TxEvent) : String := ev.httpMethod.getD ""

/-- update_transaction.py method extraction: the top-level httpMethod when
truthy, else the method nested under requestContext.http, defaulting to the
empty string. -/
def utMethod (ev : TxEvent) : String :=
  (truthyOpt ev.httpMethod).getD (ev.rcMethod.getD "")

/-- update_transaction.py tenant extraction: headers X-Tenant-Id, or under
the lowercase casing, first truthy value. -/
def utTenant (ev : TxEvent) : Option String :=
  firstTruthy (pyAssoc ev.headers "X-Tenant-Id") (pyAssoc ev.headers "x-tenant-id")

/-- The transactions table: items keyed by the transaction_id attribute. -/
abbrev TxStore := List (Scalar × Item)

/-- The key attribute of an item as the transactions table keys it. -/
def itemKey (it : Item) : Scalar := (pyAssoc it "transaction_id").getD (.s "")

/-- A store operation issued against the transactions table.  condPut is
put_item guarded by the condition that no item with this transaction_id
exists (a single atomic store operation); put is the unconditional put_item;
read is the point-read capability of the store, which neither ledger writer
ever issues. -/
inductive TxOp
  | condPut (item : Item)
  | put (item : Item)
  | read (key : Scalar)
deriving DecidableEq, Repr

/-- Responses of lambda_function.py, one constructor per response literal in
the source. -/
inductive LResp
  | corsOk
  | invalidJson
  | missingPaymentId
  | missingOrderId
  | missingStatus
  | invalidStatus
  | storeFailed
  | ok (transaction_id : Scalar) (statusStr timestamp : String)
  | internalError
deriving DecidableEq, Repr

/-- HTTP status code of each lambda_function.py response. -/
def LResp.statusCode : LResp → ℕ
  | .corsOk => 200
  | .ok _ _ _ => 200
  | .invalidJson => 400
  | .missingPaymentId => 400
  | .missingOrderId => 400
  | .missingStatus => 400
  | .invalidStatus => 400
  | .storeFailed => 500
  | .internalError => 500

/-- String-valued fields of each lambda_function.py response body, as the
source writes them (structured values, such as the received_status echo on
the invalid-status body, are omitted from this string view). -/
def LResp.bodyFields : LResp → List (String × String)
  | .corsOk => [("message", "CORS preflight success")]
  | .invalidJson => [("error", "Invalid JSON format")]
  | .missingPaymentId => [("error", "Missing required field: razorpay_payment_id")]
  | .missingOrderId => [("error", "Missing required field: razorpay_order_id")]
  | .missingStatus => [("error", "Missing required field: status")]
  | .invalidStatus => [("error", "Invalid status. Must be \x27success\x27 or \x27failed\x27")]
  | .storeFailed => [("error", "Failed to store transaction in database")]
  | .ok tid st ts =>
    [("message", "Transaction updated successfully"), ("transaction_id", tid.render),
     ("status", st), ("timestamp", ts)]
  | .internalError => [("error", "Internal server error")]

/-- Responses of update_transaction.py, one constructor per response literal
in the source. -/
inductive UResp
  | corsOk
  | invalidJson
  | missingHeader
  | missingFields (fs : List String)
  | invalidStatus
  | invalidAmount
  | storeFailed (details : String)
  | ok (transaction_id : Scalar) (statusStr timestamp : String)
  | internalError (details : String)
deriving DecidableEq, Repr

/-- HTTP status code of each update_transaction.py response. -/
def UResp.statusCode : UResp → ℕ
  | .corsOk => 200
  | .ok _ _ _ => 200
  | .invalidJson => 400
  | .missingHeader => 400
  | .missingFields _ => 400
  | .invalidStatus => 400
  | .invalidAmount => 400
  | .storeFailed _ => 500
  | .internalError _ => 500

/-- String-valued fields of each update_transaction.py response body, as the
source writes them (the machine-readable missing_fields list and the details
string produced by the external JSON parser are omitted from this string
view). -/
def UResp.bodyFields : UResp → List (String × String)
  | .corsOk => [("message", "CORS preflight success")]
  | .invalidJson => [("error", "Invalid JSON format")]
  | .missingHeader =>
    [("error", "Missing required header"), ("details", "X-Tenant-Id header is required")]
  | .missingFields _ => [("error", "Missing required fields")]
  | .invalidStatus =>
    [("error", "Invalid status value"),
     ("details", "Status must be either \x27success\x27 or \x27failed\x27")]
  | .invalidAmount =>
    [("error", "Invalid amount value"), ("details", "Amount must be a valid number")]
  | .storeFailed d => [("error", "Failed to store transaction"), ("details", d)]
  | .ok tid st ts =>
    [("message", "Transaction updated successfully"), ("transaction_id", tid.render),
     ("status", st), ("timestamp", ts)]
  | .internalError d => [("error", "Internal server error"), ("details", d)]

/-- lambda_function.py required-field validation, lines 89-118: each of
razorpay_payment_id, razorpay_order_id and status must be truthy, checked in
that order with a dedicated error each; then status must be the string
"success" or "failed". -/
def lfRequired (body : BodyMap) : LResp ⊕ (BVal × BVal × String) :=
  match truthyVal (pyAssoc body "razorpay_payment_id") with
  | none => .inl .missingPaymentId
  | some pv =>
    match truthyVal (pyAssoc body "razorpay_order_id") with
    | none => .inl .missingOrderId
    | some ov =>
      match truthyVal (pyAssoc body "status") with
      | none => .inl .missingStatus
      | some sv =>
        if sv = BVal.s "success" then .inr (pv, ov, "success")
        else if sv = BVal.s "failed" then .inr (pv, ov, "failed")
        else .inl .invalidStatus

/-- lambda_function.py optional-field handling, lines 133-156: amount is
added when present and not null, converted through Decimal(str(value)); a
failing conversion raises out of the handler body (the caller maps that to
the outer 500).  currency is added when truthy, else defaulted to INR; the
remaining optional fields are added when truthy. -/
def lfOptional (body : BodyMap) (base : Item) : Option Item :=
  let afterAmount : Option Item :=
    match pyAssoc body "amount" with
    | none => some base
    | some .null => some base
    | some v =>
      match decimalOfBVal v with
      | some q => some (pyUpsert base "amount" (.d q))
      | none => none
  match afterAmount with
  | none => none
  | some it1 =>
    let it2 :=
      match truthyVal (pyAssoc body "currency") with
      | some v => pyUpsert it1 "currency" (scalarOf v)
      | none => pyUpsert it1 "currency" (.s "INR")
    let addIf : Item → String → Item := fun it k =>
      match truthyVal (pyAssoc body k) with
      | some v => pyUpsert it k (scalarOf v)
      | none => it
    some (addIf (addIf (addIf (addIf (addIf it2 "user_id") "course_id") "email")
      "phone") "razorpay_signature")

/-- lambda_function.py handler (src/lambda/lambda_function.py, lines 47-196).
ts1 is the timestamp taken before building the item; ts2 the one taken inside
the duplicate-update branch.  f1 injects a non-conditional store fault into
the guarded put, f2 into the unconditional put of the update branch (a fault
there escapes the inner try and reaches the outer handler, hence the outer
500 body).  Returns the response, the resulting store and the trace of store
operations issued. -/
def lambda_function_handler (ev : TxEvent) (ts1 ts2 : String)
    (f1 f2 : Option String) (db : TxStore) : LResp × TxStore × List TxOp :=
  if lfMethod ev = "OPTIONS" then (.corsOk, db, [])
  else
    match parseBody ev.body with
    | none => (.invalidJson, db, [])
    | some body =>
      match lfRequired body with
      | .inl r => (r, db, [])
      | .inr (pv, ov, st) =>
        let base : Item :=
          [("transaction_id", scalarOf pv), ("razorpay_payment_id", scalarOf pv),
           ("razorpay_order_id", scalarOf ov), ("status", .s st),
           ("created_at", .s ts1), ("updated_at", .s ts1)]
        match lfOptional body base with
        | none => (.internalError, db, [])
        | some item =>
          let k := itemKey item
          match f1 with
          | some _ => (.storeFailed, db, [.condPut item])
          | none =>
            if (pyAssoc db k).isSome then
              let item2 := pyUpsert item "updated_at" (Scalar.s ts2)
              match f2 with
              | some _ => (.internalError, db, [.condPut item, .put item2])
              | none =>
                (.ok (scalarOf pv) st ts1, pyUpsert db k item2,
                 [.condPut item, .put item2])
            else
              (.ok (scalarOf pv) st ts1, pyUpsert db k item, [.condPut item])

/-- update_transaction.py required-field validation, lines 94-120: the
missing truthy fields are collected into one 400 listing them all; then
status must be the string "success" or "failed". -/
def utRequired (body : BodyMap) : UResp ⊕ (BVal × BVal × String) :=
  let pid := truthyVal (pyAssoc body "razorpay_payment_id")
  let oid := truthyVal (pyAssoc body "razorpay_order_id")
  let st := truthyVal (pyAssoc body "status")
  let missing :=
    (if pid = none then ["razorpay_payment_id"] else []) ++
    (if oid = none then ["razorpay_order_id"] else []) ++
    (if st = none then ["status"] else [])
  match pid, oid, st with
  | some pv, some ov, some sv =>
    if sv = BVal.s "success" then .inr (pv, ov, "success")
    else if sv = BVal.s "failed" then .inr (pv, ov, "failed")
    else .inl .invalidStatus
  | _, _, _ => .inl (.missingFields missing)

/-- One iteration of the update_transaction.py optional-field loop, lines
140-153: a field present and not null is added; amount is first converted
through Decimal(str(value)), a failing conversion taking the except branch
that returns the invalid-amount 400. -/
def utOptionalStep (body : BodyMap) : (UResp ⊕ Item) → String → (UResp ⊕ Item) :=
  fun acc k =>
    match acc with
    | .inl r => .inl r
    | .inr it =>
      match pyAssoc body k with
      | none => .inr it
      | some .null => .inr it
      | some v =>
        if k = "amount" then
          match decimalOfBVal v with
          | some q => .inr (pyUpsert it k (.d q))
          | none => .inl .invalidAmount
        else .inr (pyUpsert it k (scalarOf v))

/-- The update_transaction.py optional-field loop over its field list, in
source order. -/
def utOptional (body : BodyMap) (base : Item) : UResp ⊕ Item :=
  ["amount", "currency", "user_id", "course_id", "email", "phone",
   "razorpay_signature"].foldl (utOptionalStep body) (.inr base)

/-- update_transaction.py handler (src/lambda/update_transaction.py, lines
45-184).  ts is the single timestamp of the invocation; fault injects a
store fault into the one unconditional put this handler issues, carrying the
diagnostic string of the raised exception.  Returns the response, the
resulting store and the trace of store operations issued. -/
def update_transaction_handler (ev : TxEvent) (ts : String)
    (fault : Option String) (db : TxStore) : UResp × TxStore × List TxOp :=
  if utMethod ev = "OPTIONS" then (.corsOk, db, [])
  else
    match parseBody ev.body with
    | none => (.invalidJson, db, [])
    | some body =>
      match utTenant ev with
      | none => (.missingHeader, db, [])
      | some t =>
        match utRequired body with
        | .inl r => (r, db, [])
        | .inr (pv, ov, st) =>
          let base : Item :=
            [("tenant_id", .s t), ("transaction_id", scalarOf pv),
             ("razorpay_payment_id", scalarOf pv), ("razorpay_order_id", scalarOf ov),
             ("status", .s st), ("created_at", .s ts), ("updated_at", .s ts)]
          match utOptional body base with
          | .inl r => (r, db, [])
          | .inr it0 =>
            let item :=
              if (pyAssoc it0 "currency").isSome then it0
              else it0 ++ [("currency", Scalar.s "INR")]
            match fault with
            | some msg => (.storeFailed msg, db, [.put item])
            | none =>
              (.ok (scalarOf pv) st ts, pyUpsert db (itemKey item) item, [.put item])

/-- Inbound event as read by the courses handler (handler.py): the header
map (event.get("headers") or an empty map), the method nested under
requestContext.http, and rawPath.  The queryStringParameters field is read
by the source and never used, so it is not modelled. -/
structure CEvent where
  headers : List (String × String)
  rcMethod : Option String
  rawPath : Option String
deriving DecidableEq, Repr

/-- handler.py tenant extraction: lowercase header casing first, then the
canonical casing, first truthy value. -/
def cTenant (ev : CEvent) : Option String :=
  firstTruthy (pyAssoc ev.headers "x-tenant-id") (pyAssoc ev.headers "X-Tenant-Id")

/-- handler.py method extraction: requestContext.http.method, default GET. -/
def cMethod (ev : CEvent) : String := ev.rcMethod.getD "GET"

/-- handler.py path extraction: rawPath, default the root path. -/
def cPath (ev : CEvent) : String := ev.rawPath.getD "/"

/-- Whether the first list is a prefix of the second (Python startswith over
characters). -/
def hasPrefixCh : List Char → List Char → Bool
  | [], _ => true
  | _ :: _, [] => false
  | a :: as, b :: bs => a == b && hasPrefixCh as bs

/-- Python str.startswith. -/
def pyStartsWith (s pre : String) : Bool := hasPrefixCh pre.toList s.toList

/-- Drop everything up to and including the first occurrence of sep;
none when sep does not occur. -/
def dropThroughSep (sep : List Char) : List Char → Option (List Char)
  | [] => if sep = [] then some [] else none
  | x :: xs =>
    if (x :: xs).take sep.length = sep then some ((x :: xs).drop sep.length)
    else dropThroughSep sep xs

/-- Take everything up to (excluding) the next occurrence of sep. -/
def takeUntilSep (sep : List Char) : List Char → List Char
  | [] => []
  | x :: xs => if (x :: xs).take sep.length = sep then [] else x :: takeUntilSep sep xs

/-- Python path.split(sep) indexed at 1: the segment between the first and
second occurrences of sep (to the end when sep occurs once).  The callers
guard the existence of a first occurrence; without one Python raises an
IndexError, modelled by the empty segment behind that guard. -/
def pySplitSecond (s sep : String) : String :=
  match dropThroughSep sep.toList s.toList with
  | none => ""
  | some rest => String.mk (takeUntilSep sep.toList rest)

/-- The courses table: items keyed by the composite (tenant_id, course_id). -/
abbrev CourseStore := List ((String × String) × Item)

/-- A store operation issued against the courses table: the partition range
query or the composite-key point read. -/
inductive CourseOp
  | query (tenant : String)
  | read (tenant course : String)
deriving DecidableEq, Repr

/-- Responses of handler.py, one constructor per response literal in the
source. -/
inductive CResp
  | missingHeader
  | listOk (items : List Item)
  | courseNotFound
  | courseOk (it : Item)
  | routeNotFound
deriving DecidableEq, Repr

/-- HTTP status code of each handler.py response. -/
def CResp.statusCode : CResp → ℕ
  | .missingHeader => 400
  | .listOk _ => 200
  | .courseNotFound => 404
  | .courseOk _ => 200
  | .routeNotFound => 404

/-- handler.py handler (src/lambda/handler.py, lines 41-88).  Returns the
response and the trace of store operations issued (the handler is
read-only, so no store result state). -/
def courses_handler (ev : CEvent) (db : CourseStore) : CResp × List CourseOp :=
  match cTenant ev with
  | none => (.missingHeader, [])
  | some tenant =>
    let method := cMethod ev
    let path := cPath ev
    if method = "GET" ∧ path = "/courses" then
      (.listOk ((db.filter (fun p => p.1.1 == tenant)).map (fun p => p.2)),
       [.query tenant])
    else if method = "GET" ∧ pyStartsWith path "/courses/" then
      let encoded := pySplitSecond path "/courses/"
      let cid := unquote encoded
      match pyAssoc db (tenant, cid) with
      | none => (.courseNotFound, [.read tenant cid])
      | some it => (.courseOk it, [.read tenant cid])
    else (.routeNotFound, [])

/-- Whether a store operation is the atomic conditional put. -/
def TxOp.isCondPut : TxOp → Bool
  | .condPut _ => true
  | _ => false

/-- A proposed ledger entry delivered as lambda_function.py receives it:
POST, no headers, the three required fields as strings in the body. -/
def mkLfEvent (pid oid st : String) : TxEvent :=
  { httpMethod := some "POST", rcMethod := none, headers := [],
    body := .dictBody [("razorpay_payment_id", .s pid),
      ("razorpay_order_id", .s oid), ("status", .s st)] }

/-- A proposed ledger entry delivered as update_transaction.py receives it:
POST, tenant header under the lowercase casing, the three required fields as
strings in the body. -/
def mkUtEvent (t pid oid st : String) : TxEvent :=
  { httpMethod := some "POST", rcMethod := none,
    headers := [("x-tenant-id", t)],
    body := .dictBody [("razorpay_payment_id", .s pid),
      ("razorpay_order_id", .s oid), ("status", .s st)] }

/-- The item lambda_function.py builds for such an event (no optional fields
supplied, currency defaulted), with the given created_at and updated_at. -/
def lfItem (pid oid st created updated : String) : Item :=
  [("transaction_id", .s pid), ("razorpay_payment_id", .s pid),
   ("razorpay_order_id", .s oid), ("status", .s st),
   ("created_at", .s created), ("updated_at", .s updated),
   ("currency", .s "INR")]

/-- The item update_transaction.py builds for such an event (no optional
fields supplied, currency defaulted). -/
def utItem (t pid oid st ts : String) : Item :=
  [("tenant_id", .s t), ("transaction_id", .s pid),
   ("razorpay_payment_id", .s pid), ("razorpay_order_id", .s oid),
   ("status", .s st), ("created_at", .s ts), ("updated_at", .s ts),
   ("currency", .s "INR")]

/-- A path that starts with the item-route prefix is not the collection
path. -/
theorem ne_collection_of_item {p : String}
    (h : pyStartsWith p "/courses/" = true) : p ≠ "/courses" := by
  intro hp
  subst hp
  exact absurd h (by decide)

/-- Every validation failure reported by the update_transaction.py
required-field step carries status 400. -/
theorem utRequired_inl_code (body : BodyMap) (r : UResp)
    (h : utRequired body = Sum.inl r) : r.statusCode = 400 := by
  unfold utRequired at h
  dsimp only at h
  split at h
  · split at h
    · exact absurd h (by simp)
    · split at h
      · exact absurd h (by simp)
      · cases h
        rfl
  · cases h
    rfl

/-- C9 (confirmed).  For every exact-decimal value run through the response
serializer, a value with no fractional part is emitted as a Python int and a
value with a fractional part as a Python float: 199.99 serializes as the
float 199.99, 200 as the int 200, and the int 200 is a different emitted
value from the float 200.0. -/
theorem C9_theorem :
    default_serializer ((19999 : ℚ) / 100) = PyNum.floatVal ((19999 : ℚ) / 100)
    ∧ default_serializer (200 : ℚ) = PyNum.intVal 200
    ∧ (∀ q : ℚ, q.den = 1 → default_serializer q = PyNum.intVal q.num)
    ∧ PyNum.intVal 200 ≠ PyNum.floatVal 200 := by
  have hden : ((19999 : ℚ) / 100).den = 100 := by norm_num
  have hden200 : (200 : ℚ).den = 1 := by norm_num
  have hnum200 : (200 : ℚ).num = 200 := by norm_num
  refine ⟨?_, ?_, ?_, by simp⟩
  · simp [default_serializer, hden]
  · simp [default_serializer, hden200, hnum200]
  · intro q hq
    simp [default_serializer, hq]

/-- C9 witness: the integral case evaluated at 200 through the theorem. -/
theorem C9_witness : default_serializer (mkRat 200 1) = PyNum.intVal (mkRat 200 1).num :=
  C9_theorem.2.2.1 (mkRat 200 1) (by decide)

/-- C7 (confirmed).  On a GET of an item path with the tenant header
present, the catalog handler point-reads the composite key (tenant, decoded
trailing segment): a stored item is returned verbatim with 200, an absent
one yields the Course-not-found 404. -/
theorem C7_theorem (cv : CEvent) (cdb : CourseStore) (t p : String)
    (ht : cTenant cv = some t) (hm : cMethod cv = "GET")
    (hp : cPath cv = p) (hpre : pyStartsWith p "/courses/" = true) :
    (∀ item, pyAssoc cdb (t, unquote (pySplitSecond p "/courses/")) = some item →
      courses_handler cv cdb =
        (CResp.courseOk item, [CourseOp.read t (unquote (pySplitSecond p "/courses/"))])
      ∧ (CResp.courseOk item).statusCode = 200)
    ∧ (pyAssoc cdb (t, unquote (pySplitSecond p "/courses/")) = none →
      courses_handler cv cdb =
        (CResp.courseNotFound, [CourseOp.read t (unquote (pySplitSecond p "/courses/"))])
      ∧ CResp.courseNotFound.statusCode = 404) := by
  have hne := ne_collection_of_item hpre
  constructor
  · intro item hit
    refine ⟨?_, rfl⟩
    simp [courses_handler, ht, hm, hp, hne, hpre, hit]
  · intro habs
    refine ⟨?_, rfl⟩
    simp [courses_handler, ht, hm, hp, hne, hpre, habs]

/-- C7 witness: the scenario of the spec, a stored item under tenant acme
returned verbatim. -/
theorem C7_witness :
    courses_handler
        { headers := [("X-Tenant-Id", "acme")], rcMethod := some "GET",
          rawPath := some "/courses/c1" }
        [(("acme", "c1"), [("tenant_id", .s "acme"), ("course_id", .s "c1"),
          ("price", .d 500)])]
      = (CResp.courseOk [("tenant_id", .s "acme"), ("course_id", .s "c1"),
          ("price", .d 500)],
         [CourseOp.read "acme" "c1"]) := by
  have h := C7_theorem
    { headers := [("X-Tenant-Id", "acme")], rcMethod := some "GET",
      rawPath := some "/courses/c1" }
    [(("acme", "c1"), [("tenant_id", .s "acme"), ("course_id", .s "c1"),
      ("price", .d 500)])]
    "acme" "/courses/c1" (by decide) (by decide) (by decide) (by decide)
  exact (h.1 [("tenant_id", .s "acme"), ("course_id", .s "c1"), ("price", .d 500)]
    (by decide)).1

/-- C8 (confirmed).  The trailing identifier segment of an item path is
percent-decoded before it is used as the lookup key: the path
/courses/c%231 resolves to the lookup key with the hash character. -/
theorem C8_theorem (cv : CEvent) (cdb : CourseStore) (t : String)
    (ht : cTenant cv = some t) (hm : cMethod cv = "GET")
    (hp : cPath cv = "/courses/c%231") :
    unquote (pySplitSecond "/courses/c%231" "/courses/") = "c#1"
    ∧ (courses_handler cv cdb).2 = [CourseOp.read t "c#1"] := by
  refine ⟨by decide, ?_⟩
  have h1 : pyStartsWith "/courses/c%231" "/courses/" = true := by decide
  have h2 : unquote (pySplitSecond "/courses/c%231" "/courses/") = "c#1" := by decide
  have hne : ("/courses/c%231" : String) ≠ "/courses" := by decide
  cases hq : pyAssoc cdb (t, "c#1") <;>
    simp [courses_handler, ht, hm, hp, hne, h1, h2, hq]

/-- C8 witness: the decoded key drives the point read at a concrete event. -/
theorem C8_witness :
    (courses_handler
        { headers := [("x-tenant-id", "acme")], rcMethod := some "GET",
          rawPath := some "/courses/c%231" } []).2
      = [CourseOp.read "acme" "c#1"] :=
  (C8_theorem
    { headers := [("x-tenant-id", "acme")], rcMethod := some "GET",
      rawPath := some "/courses/c%231" } [] "acme"
    (by decide) (by decide) (by decide)).2

/-- C6 counterexample.  The courses handler (handler.py) has no OPTIONS
branch: an OPTIONS request without the X-Tenant-Id header is answered with
the missing-header 400, not a 200 CORS preflight acknowledgment. -/
theorem C6_counterexample :
    courses_handler
        { headers := [], rcMethod := some "OPTIONS", rawPath := some "/courses" } []
      = (CResp.missingHeader, [])
    ∧ CResp.missingHeader.statusCode = 400 := by
  exact ⟨by decide, rfl⟩

/-- C6 as amended.  Both ledger handlers answer OPTIONS with a 200 CORS
preflight acknowledgment, bypassing every other check and requiring no
tenant header and touching no store; the courses handler has no OPTIONS
branch and instead demands the tenant header first, answering 400 when it is
absent. -/
theorem C6_theorem (ev : TxEvent) (cv : CEvent) (ts1 ts2 ts : String)
    (f1 f2 fu : Option String) (db db2 : TxStore) (cdb : CourseStore)
    (hl : lfMethod ev = "OPTIONS") (hu : utMethod ev = "OPTIONS")
    (hc : cTenant cv = none) :
    (lambda_function_handler ev ts1 ts2 f1 f2 db = (LResp.corsOk, db, [])
      ∧ LResp.corsOk.statusCode = 200)
    ∧ (update_transaction_handler ev ts fu db2 = (UResp.corsOk, db2, [])
      ∧ UResp.corsOk.statusCode = 200)
    ∧ (courses_handler cv cdb = (CResp.missingHeader, [])
      ∧ CResp.missingHeader.statusCode = 400) := by
  refine ⟨⟨?_, rfl⟩, ⟨?_, rfl⟩, ⟨?_, rfl⟩⟩
  · simp [lambda_function_handler, hl]
  · simp [update_transaction_handler, hu]
  · simp [courses_handler, hc]

/-- C6 witness: a concrete OPTIONS event without any headers through both
ledger handlers and the courses handler. -/
theorem C6_witness :
    update_transaction_handler
        { httpMethod := some "OPTIONS", rcMethod := none, headers := [],
          body := BodyInput.omitted } "T1" none []
      = (UResp.corsOk, [], []) :=
  (C6_theorem
    { httpMethod := some "OPTIONS", rcMethod := none, headers := [],
      body := BodyInput.omitted }
    { headers := [], rcMethod := some "OPTIONS", rawPath := some "/" }
    "T1" "T2" "T1" none none none [] [] []
    (by decide) (by decide) (by decide)).2.1.1

/-- C1 counterexample.  Submitting the same valid entry twice through
lambda_function.py: the first call stores created_at T1, yet after the
second call the stored created_at is the second call's timestamp T2, not the
value written by the first call. -/
theorem C1_counterexample :
    (pyAssoc (lambda_function_handler (mkLfEvent "pay_1" "order_1" "success")
        "T1" "T1b" none none []).2.1 (Scalar.s "pay_1")).bind
      (fun it => pyAssoc it "created_at") = some (Scalar.s "T1")
    ∧ (pyAssoc (lambda_function_handler (mkLfEvent "pay_1" "order_1" "success")
        "T2" "T2b" none none
        (lambda_function_handler (mkLfEvent "pay_1" "order_1" "success")
          "T1" "T1b" none none []).2.1).2.1 (Scalar.s "pay_1")).bind
      (fun it => pyAssoc it "created_at") = some (Scalar.s "T2")
    ∧ Scalar.s "T2" ≠ Scalar.s "T1" := by
  refine ⟨by decide, by decide, by decide⟩

/-- C1 as amended.  Submitting the same valid entry twice leaves exactly one
stored record for the transaction_id, whose updated_at reflects the second
write; but the record's created_at is overwritten with the second call's
write timestamp rather than preserved from the first call (under a monotone
clock it therefore never moves backward, yet it does not equal the first
call's created_at whenever the timestamps differ). -/
theorem C1_theorem (pid oid st ts1 ts1b ts2 ts2b : String)
    (hpid : pid ≠ "") (hoid : oid ≠ "") (hst : st = "success" ∨ st = "failed") :
    (lambda_function_handler (mkLfEvent pid oid st) ts1 ts1b none none []).2.1
      = [(Scalar.s pid, lfItem pid oid st ts1 ts1)]
    ∧ (lambda_function_handler (mkLfEvent pid oid st) ts2 ts2b none none
        (lambda_function_handler (mkLfEvent pid oid st) ts1 ts1b none none []).2.1).2.1
      = [(Scalar.s pid, lfItem pid oid st ts2 ts2b)]
    ∧ (lambda_function_handler (mkLfEvent pid oid st) ts1 ts1b none none
        []).1.statusCode = 200
    ∧ (lambda_function_handler (mkLfEvent pid oid st) ts2 ts2b none none
        (lambda_function_handler (mkLfEvent pid oid st) ts1 ts1b none none
          []).2.1).1.statusCode = 200 := by
  rcases hst with h | h <;> subst h <;>
    simp [lambda_function_handler, mkLfEvent, lfMethod, parseBody, lfRequired,
      lfOptional, truthyVal, truthy, pyAssoc, pyUpsert, scalarOf, itemKey, lfItem,
      LResp.statusCode, bne_iff_ne, hpid, hoid]

/-- C1 witness: the two-call run at a concrete entry, ending in the single
record with the second call's timestamps. -/
theorem C1_witness :
    (lambda_function_handler (mkLfEvent "pay_1" "order_1" "success") "T2" "T3"
        none none
        (lambda_function_handler (mkLfEvent "pay_1" "order_1" "success")
          "T0" "T1" none none []).2.1).2.1
      = [(Scalar.s "pay_1", lfItem "pay_1" "order_1" "success" "T2" "T3")] := by
  have h := C1_theorem "pay_1" "order_1" "success" "T0" "T1" "T2" "T3"
    (by decide) (by decide) (Or.inl rfl)
  exact h.2.1

/-- C2 (confirmed).  When the conditional insert would fail because a record
with the same transaction_id already exists, lambda_function.py does not
return an error: it branches into the update path, overwrites the record
with the new fields, refreshes updated_at with the second wall-clock read,
and answers 200. -/
theorem C2_theorem (pid oid st ts1 ts2 : String) (db : TxStore) (prev : Item)
    (hpid : pid ≠ "") (hoid : oid ≠ "") (hst : st = "success" ∨ st = "failed")
    (hdup : pyAssoc db (Scalar.s pid) = some prev) :
    let r := lambda_function_handler (mkLfEvent pid oid st) ts1 ts2 none none db
    r.1 = LResp.ok (Scalar.s pid) st ts1
    ∧ r.1.statusCode = 200
    ∧ r.2.1 = pyUpsert db (Scalar.s pid) (lfItem pid oid st ts1 ts2)
    ∧ r.2.2 = [TxOp.condPut (lfItem pid oid st ts1 ts1),
               TxOp.put (lfItem pid oid st ts1 ts2)] := by
  rcases hst with h | h <;> subst h <;>
    simp [lambda_function_handler, mkLfEvent, lfMethod, parseBody, lfRequired,
      lfOptional, truthyVal, truthy, pyAssoc, pyUpsert, scalarOf, itemKey, lfItem,
      LResp.statusCode, bne_iff_ne, hpid, hoid, hdup]

/-- C2 witness: a duplicate delivery over a store already holding the
record, answered 200 with the refreshed record. -/
theorem C2_witness :
    (lambda_function_handler (mkLfEvent "pay_1" "order_1" "failed") "T2" "T3"
        none none
        [(Scalar.s "pay_1", lfItem "pay_1" "order_1" "success" "T0" "T1")]).1
      = LResp.ok (Scalar.s "pay_1") "failed" "T2" := by
  have h := C2_theorem "pay_1" "order_1" "failed" "T2" "T3"
    [(Scalar.s "pay_1", lfItem "pay_1" "order_1" "success" "T0" "T1")]
    (lfItem "pay_1" "order_1" "success" "T0" "T1")
    (by decide) (by decide) (Or.inr rfl) (by decide)
  exact h.1

/-- Every store trace of lambda_function.py is empty, a single conditional
put, or a conditional put followed by the update-path put: never a read, and
never a write not led by the atomic conditional put. -/
theorem lf_trace_shape (ev : TxEvent) (ts1 ts2 : String) (f1 f2 : Option String)
    (db : TxStore) :
    (lambda_function_handler ev ts1 ts2 f1 f2 db).2.2 = []
    ∨ (∃ it, (lambda_function_handler ev ts1 ts2 f1 f2 db).2.2 = [TxOp.condPut it])
    ∨ (∃ i1 i2, (lambda_function_handler ev ts1 ts2 f1 f2 db).2.2
        = [TxOp.condPut i1, TxOp.put i2]) := by
  unfold lambda_function_handler
  repeat' split <;> try simp

/-- Every store trace of update_transaction.py is empty or one unconditional
put: never a read, and never a conditional put. -/
theorem ut_trace_shape (ev : TxEvent) (ts : String) (fault : Option String)
    (db : TxStore) :
    (update_transaction_handler ev ts fault db).2.2 = []
    ∨ (∃ it, (update_transaction_handler ev ts fault db).2.2 = [TxOp.put it]) := by
  unfold update_transaction_handler
  repeat' split <;> try simp

/-- C3 counterexample.  In the update_transaction.py variant a first write
of a valid proposed entry is a single unconditional put: the trace holds no
conditional store operation at all, so the existence-guarded atomic insert
the claim requires for every first write attempt is absent there. -/
theorem C3_counterexample :
    (update_transaction_handler (mkUtEvent "acme" "pay_1" "order_1" "success")
        "T1" none []).2.2
      = [TxOp.put (utItem "acme" "pay_1" "order_1" "success" "T1")]
    ∧ ((update_transaction_handler (mkUtEvent "acme" "pay_1" "order_1" "success")
        "T1" none []).2.2.all (fun op => !op.isCondPut)) = true
    ∧ (update_transaction_handler (mkUtEvent "acme" "pay_1" "order_1" "success")
        "T1" none []).1.statusCode = 200 := by
  refine ⟨by decide, by decide, by decide⟩

/-- C3 as amended.  Neither ledger writer ever performs a separate read
followed by a write: lambda_function.py issues the existence check and the
insert as one atomic conditional put (every nonempty trace starts with it),
while update_transaction.py issues a single unconditional put with no
existence check at all. -/
theorem C3_theorem (ev : TxEvent) (ts1 ts2 ts : String) (f1 f2 fu : Option String)
    (db db2 : TxStore) :
    ((lambda_function_handler ev ts1 ts2 f1 f2 db).2.2 = []
      ∨ (∃ it, (lambda_function_handler ev ts1 ts2 f1 f2 db).2.2 = [TxOp.condPut it])
      ∨ (∃ i1 i2, (lambda_function_handler ev ts1 ts2 f1 f2 db).2.2
          = [TxOp.condPut i1, TxOp.put i2]))
    ∧ ((update_transaction_handler ev ts fu db2).2.2 = []
      ∨ (∃ it, (update_transaction_handler ev ts fu db2).2.2 = [TxOp.put it])) :=
  ⟨lf_trace_shape ev ts1 ts2 f1 f2 db, ut_trace_shape ev ts fu db2⟩

/-- C4 counterexample.  A non-conditional store failure with diagnostic
"boom" in lambda_function.py is answered 500 with the fixed body
"Failed to store transaction in database": the store's diagnostic message
appears nowhere in the response body. -/
theorem C4_counterexample :
    (lambda_function_handler (mkLfEvent "pay_1" "order_1" "success")
        "T1" "T2" (some "boom") none []).1 = LResp.storeFailed
    ∧ LResp.storeFailed.statusCode = 500
    ∧ LResp.storeFailed.bodyFields
        = [("error", "Failed to store transaction in database")]
    ∧ "boom" ∉ LResp.storeFailed.bodyFields.map (fun p => p.2) := by
  refine ⟨by decide, rfl, rfl, by decide⟩

/-- C4 as amended.  On a store failure other than the precondition failure,
both writers answer 500 and leave the store untouched; update_transaction.py
surfaces the store's diagnostic message in the details field of the body,
while lambda_function.py replaces it with the fixed message
"Failed to store transaction in database" (the diagnostic goes only to the
log). -/
theorem C4_theorem (t pid oid st ts msg : String) (db db2 : TxStore)
    (ht : t ≠ "") (hpid : pid ≠ "") (hoid : oid ≠ "")
    (hst : st = "success" ∨ st = "failed") :
    (let ru := update_transaction_handler (mkUtEvent t pid oid st) ts (some msg) db
     ru.1 = UResp.storeFailed msg
     ∧ ru.1.statusCode = 500
     ∧ ("details", msg) ∈ ru.1.bodyFields
     ∧ ru.2.1 = db)
    ∧ (let rl := lambda_function_handler (mkLfEvent pid oid st) ts ts (some msg)
          none db2
       rl.1 = LResp.storeFailed
       ∧ rl.1.statusCode = 500
       ∧ rl.1.bodyFields = [("error", "Failed to store transaction in database")]
       ∧ rl.2.1 = db2) := by
  rcases hst with h | h <;> subst h <;>
    constructor <;>
      simp [update_transaction_handler, lambda_function_handler, mkUtEvent, mkLfEvent,
        utMethod, lfMethod, utTenant, firstTruthy, truthyOpt, parseBody, utRequired,
        lfRequired, utOptional, utOptionalStep, lfOptional, truthyVal, truthy, pyAssoc,
        scalarOf, UResp.statusCode, LResp.statusCode, UResp.bodyFields, LResp.bodyFields,
        bne_iff_ne, ht, hpid, hoid]

/-- C4 witness: both writers on a concrete entry with an injected store
fault carrying the diagnostic "boom". -/
theorem C4_witness :
    (update_transaction_handler (mkUtEvent "acme" "pay_1" "order_1" "success")
        "T1" (some "boom") []).1 = UResp.storeFailed "boom" := by
  have h := C4_theorem "acme" "pay_1" "order_1" "success" "T1" "boom" [] []
    (by decide) (by decide) (by decide) (Or.inl rfl)
  exact h.1.1

/-- C5 (confirmed).  A request failing validation - missing tenant header on
the tenant-scoped read, malformed JSON body, or a missing required ledger
field or status outside the enum in update_transaction.py - is answered 400
and issues no store operation at all: no query, no read, no write. -/
theorem C5_theorem (cv : CEvent) (ev1 ev2 : TxEvent) (body2 : BodyMap) (r : UResp)
    (t2 ts1 ts2 : String) (f1 f2 : Option String) (db1 db2 : TxStore)
    (cdb : CourseStore)
    (hc : cTenant cv = none)
    (h1m : utMethod ev1 ≠ "OPTIONS") (h1b : ev1.body = BodyInput.strBody none)
    (h2m : utMethod ev2 ≠ "OPTIONS") (h2b : parseBody ev2.body = some body2)
    (h2t : utTenant ev2 = some t2) (h2r : utRequired body2 = Sum.inl r) :
    (courses_handler cv cdb = (CResp.missingHeader, [])
      ∧ CResp.missingHeader.statusCode = 400)
    ∧ (update_transaction_handler ev1 ts1 f1 db1 = (UResp.invalidJson, db1, [])
      ∧ UResp.invalidJson.statusCode = 400)
    ∧ (update_transaction_handler ev2 ts2 f2 db2 = (r, db2, [])
      ∧ r.statusCode = 400) := by
  refine ⟨⟨?_, rfl⟩, ⟨?_, rfl⟩, ?_, utRequired_inl_code body2 r h2r⟩
  · simp [courses_handler, hc]
  · simp [update_transaction_handler, h1m, h1b, parseBody]
  · simp [update_transaction_handler, h2m, h2b, h2t, h2r]

/-- C5 witness: a submission with status outside the enum, answered 400 with
no store operation. -/
theorem C5_witness :
    update_transaction_handler
        { httpMethod := some "POST", rcMethod := none,
          headers := [("X-Tenant-Id", "acme")],
          body := BodyInput.dictBody [("razorpay_payment_id", .s "pay_1"),
            ("razorpay_order_id", .s "order_1"), ("status", .s "refunded")] }
        "T1" none []
      = (UResp.invalidStatus, [], []) := by
  have h := C5_theorem
    { headers := [], rcMethod := some "GET", rawPath := some "/courses" }
    { httpMethod := some "POST", rcMethod := none, headers := [],
      body := BodyInput.strBody none }
    { httpMethod := some "POST", rcMethod := none,
      headers := [("X-Tenant-Id", "acme")],
      body := BodyInput.dictBody [("razorpay_payment_id", .s "pay_1"),
        ("razorpay_order_id", .s "order_1"), ("status", .s "refunded")] }
    [("razorpay_payment_id", .s "pay_1"), ("razorpay_order_id", .s "order_1"),
     ("status", .s "refunded")]
    UResp.invalidStatus "acme" "T1" "T1" none none [] [] []
    (by decide) (by decide) (by decide) (by decide) (by decide) (by decide)
    (by decide)
  exact h.2.2.1

/-- C10 (confirmed).  In update_transaction.py every non-OPTIONS request
lacking the X-Tenant-Id header under both casings is answered 400 before the
required-field validation runs and before any store access (a body that
fails to parse is likewise answered 400 with no store access); when the
header is present - the lowercase casing suffices - the tenant id is stored
only as an item attribute while the record stays keyed by the
transaction_id taken from razorpay_payment_id. -/
theorem C10_theorem (ev : TxEvent) (t pid oid st ts ts2 : String)
    (f : Option String) (db db2 : TxStore)
    (hm : utMethod ev ≠ "OPTIONS") (hten : utTenant ev = none)
    (ht : t ≠ "") (hpid : pid ≠ "") (hoid : oid ≠ "")
    (hst : st = "success" ∨ st = "failed") :
    ((parseBody ev.body = none →
        update_transaction_handler ev ts f db = (UResp.invalidJson, db, []))
      ∧ (∀ body, parseBody ev.body = some body →
          update_transaction_handler ev ts f db = (UResp.missingHeader, db, []))
      ∧ UResp.missingHeader.statusCode = 400
      ∧ UResp.invalidJson.statusCode = 400)
    ∧ (let r := update_transaction_handler (mkUtEvent t pid oid st) ts2 none db2
       r.2.2 = [TxOp.put (utItem t pid oid st ts2)]
       ∧ pyAssoc (utItem t pid oid st ts2) "tenant_id" = some (Scalar.s t)
       ∧ itemKey (utItem t pid oid st ts2) = Scalar.s pid
       ∧ r.2.1 = pyUpsert db2 (Scalar.s pid) (utItem t pid oid st ts2)) := by
  constructor
  · refine ⟨?_, ?_, rfl, rfl⟩
    · intro hb
      simp [update_transaction_handler, hm, hb]
    · intro body hb
      simp [update_transaction_handler, hm, hb, hten]
  · rcases hst with h | h <;> subst h <;>
      simp [update_transaction_handler, mkUtEvent, utMethod, utTenant, firstTruthy,
        truthyOpt, parseBody, utRequired, utOptional, utOptionalStep, truthyVal,
        truthy, pyAssoc, pyUpsert, scalarOf, itemKey, utItem, bne_iff_ne,
        ht, hpid, hoid]

/-- C10 witness: a concrete missing-header rejection and a concrete accepted
write keyed by the payment id with the tenant as attribute. -/
theorem C10_witness :
    update_transaction_handler
        { httpMethod := some "POST", rcMethod := none, headers := [],
          body := BodyInput.dictBody [("razorpay_payment_id", .s "pay_1"),
            ("razorpay_order_id", .s "order_1"), ("status", .s "success")] }
        "T1" none []
      = (UResp.missingHeader, [], []) := by
  have h := C10_theorem
    { httpMethod := some "POST", rcMethod := none, headers := [],
      body := BodyInput.dictBody [("razorpay_payment_id", .s "pay_1"),
        ("razorpay_order_id", .s "order_1"), ("status", .s "success")] }
    "acme" "pay_1" "order_1" "success" "T1" "T1" none [] []
    (by decide) (by decide) (by decide) (by decide) (by decide) (Or.inl rfl)
  exact h.1.2.1
    [("razorpay_payment_id", .s "pay_1"), ("razorpay_order_id", .s "order_1"),
     ("status", .s "success")] (by decide)

end LMS
